import Mathlib

/-
Verification development for the unix-style-utils file-management library
(src/ust/file.py, src/ust/path.py, src/ust/defines.py, src/ust/errors.py).

The Python source is shallowly embedded:
  * the filesystem (an external collaborator reached through `os`, `shutil`,
    `glob` and `os.system`) is modelled as an association list from
    POSIX-style path strings to nodes carrying a type, text content,
    a modification time and permission bits;
  * every Python function that can raise is embedded as a function into
    `Except PyErr _`; the exception classes of src/ust/errors.py and the
    built-in exception classes that the code can raise are the constructors
    of `PyErr`;
  * Python `str` operations and the functions of `posixpath` / `ntpath`
    used by src/ust/path.py are translated to structurally recursive
    functions over `List Char`;
  * the module-global compare cache `_cache` is threaded explicitly through
    `cmpfile` as a value of type `Cache`.
-/

namespace Ust

/-! ## Exceptions (src/ust/errors.py plus built-ins raised by the code) -/

inductive PyErr where
  | FileRemoveError (msg : String)
  | FileMoveError (msg : String)
  | UnsupportedModeError (msg : String)
  | InvalidArgType (msg : String)
  | ParameterError (msg : String)
  | PermissionError (msg : String)
  | ValueError (msg : String)
  | TypeError (msg : String)
  | IndexError (msg : String)
  -- OSError and its built-in subclasses
  | OSError (msg : String)
  | FileNotFoundError (msg : String)
  | IsADirectoryError (msg : String)
  | NotADirectoryError (msg : String)
  | FileExistsError (msg : String)
  deriving DecidableEq, Repr

/-- The built-in exceptions caught by `except (shutil.Error, PermissionError,
OSError)` in `_copyfile`: `PermissionError` and the whole `OSError` family
(`FileNotFoundError`, `IsADirectoryError`, `NotADirectoryError` and
`FileExistsError` are subclasses of `OSError`). -/
def PyErr.isOSFamily : PyErr → Bool
  | .PermissionError _ => true
  | .OSError _ => true
  | .FileNotFoundError _ => true
  | .IsADirectoryError _ => true
  | .NotADirectoryError _ => true
  | .FileExistsError _ => true
  | _ => false

/-- The exceptions caught by `except (shutil.Error, PermissionError)` in
`_copytree` (a plain `OSError` is not caught there). -/
def PyErr.isPermission : PyErr → Bool
  | .PermissionError _ => true
  | _ => false

/-! ## Platform (src/ust/defines.py): PLATFORM is "win" or "posix" -/

inductive Platform where
  | win
  | posix
  deriving DecidableEq, Repr

def WINDOWS_MAX_PATH : Nat := 260

/-! ## Filesystem model (collaborator: `os`, `shutil`).

A filesystem is an association list from absolute POSIX-style path strings
to nodes.  A node records the `stat` file type, the text content (for
directories the content is unused), the modification time and the two
permission bits consulted by `os.access` and by the copy collaborators. -/

inductive NodeType where
  | file
  | dir
  | special
  deriving DecidableEq, Repr

structure FNode where
  ntype : NodeType
  content : String
  mtime : Int
  readable : Bool := true
  writable : Bool := true
  deriving DecidableEq, Repr

abbrev FS := List (String × FNode)

def FS.lookup : FS → String → Option FNode
  | [], _ => none
  | (q, n) :: rest, p => if q = p then some n else FS.lookup rest p

def FS.erase : FS → String → FS
  | [], _ => []
  | (q, n) :: rest, p => if q = p then FS.erase rest p else (q, n) :: FS.erase rest p

def FS.set (fs : FS) (p : String) (n : FNode) : FS :=
  (p, n) :: FS.erase fs p

@[simp] theorem FS.lookup_set_self (fs : FS) (p : String) (n : FNode) :
    FS.lookup (FS.set fs p n) p = some n := by
  simp [FS.set, FS.lookup]

theorem FS.lookup_erase (fs : FS) (p q : String) :
    FS.lookup (FS.erase fs p) q = if q = p then none else FS.lookup fs q := by
  induction fs with
  | nil => simp [FS.erase, FS.lookup]
  | cons e rest ih =>
    obtain ⟨r, n⟩ := e
    by_cases hrp : r = p
    · subst hrp
      by_cases hqp : q = r
      · subst hqp
        simpa [FS.erase, FS.lookup] using ih
      · have hrq : ¬ r = q := fun h => hqp h.symm
        simp [FS.erase, FS.lookup, hqp, hrq] at ih ⊢
        exact ih
    · by_cases hrq : r = q
      · have hqp : ¬ q = p := fun h2 => hrp (hrq.trans h2)
        simp [FS.erase, FS.lookup, hrp, hrq, hqp]
      · simp [FS.erase, FS.lookup, hrp, hrq]
        exact ih

theorem FS.lookup_set_ne (fs : FS) (p q : String) (n : FNode) (h : q ≠ p) :
    FS.lookup (FS.set fs p n) q = FS.lookup fs q := by
  have hpq : ¬ p = q := fun h2 => h h2.symm
  simp [FS.set, FS.lookup, hpq, FS.lookup_erase, h]

/-! ## Python string helpers (collaborator: `str`).

The embedding works on `List Char`; unicode-only aspects (`str.lower` beyond
ASCII, exotic `str.splitlines` terminators) are out of scope: all strings the
claims touch are ASCII. -/

/-- Python `str.lower`, character-wise (ASCII). -/
def pyLower (s : String) : String :=
  ⟨s.data.map Char.toLower⟩

/-- Python `str.strip()` with no argument: drop leading and trailing
whitespace. -/
def pyStrip (s : String) : String :=
  ⟨(((s.data.dropWhile Char.isWhitespace).reverse.dropWhile Char.isWhitespace).reverse)⟩

/-- Python `str.split(ch)` (always at least one piece; `"".split(ch) = [""]`). -/
def splitOnCharAux (ch : Char) : List Char → List Char → List (List Char)
  | acc, [] => [acc.reverse]
  | acc, c :: cs =>
    if c = ch then acc.reverse :: splitOnCharAux ch [] cs
    else splitOnCharAux ch (c :: acc) cs

def splitOnChar (ch : Char) (s : String) : List (List Char) :=
  splitOnCharAux ch [] s.data

/-- Iterating a Python text file (or splitting text for it) yields the lines
with their trailing newline characters kept; a last line without a final
newline is yielded as-is, and no empty final line is produced. -/
def splitLinesKeepAux : List Char → List Char → List String
  | acc, [] => if acc = [] then [] else [⟨acc.reverse⟩]
  | acc, c :: cs =>
    if c = '\n' then ⟨(c :: acc).reverse⟩ :: splitLinesKeepAux [] cs
    else splitLinesKeepAux (c :: acc) cs

def splitLinesKeep (s : String) : List String :=
  splitLinesKeepAux [] s.data

/-- Python `str.splitlines()`: lines without their terminators (the source
only feeds it text using the `\n` terminator). -/
def pySplitlinesAux : List Char → List Char → List String
  | acc, [] => if acc = [] then [] else [⟨acc.reverse⟩]
  | acc, c :: cs =>
    if c = '\n' then ⟨acc.reverse⟩ :: pySplitlinesAux [] cs
    else pySplitlinesAux (c :: acc) cs

def pySplitlines (s : String) : List String :=
  pySplitlinesAux [] s.data

def headCharD (s : String) (d : Char) : Char := s.data.headD d

def lastCharD (s : String) (d : Char) : Char := s.data.getLastD d

def strContainsChar (s : String) (c : Char) : Bool := s.data.contains c

/-! ## posixpath (collaborator of src/ust/path.py and src/ust/file.py) -/

/-- `p.rfind('/') + 1` (0 when there is no slash): the cut position used by
`posixpath.dirname` and `posixpath.basename`. -/
def lastSlashPos : List Char → Nat
  | [] => 0
  | c :: cs =>
    let r := lastSlashPos cs
    if r > 0 then r + 1 else if c = '/' then 1 else 0

/-- `posixpath.dirname`: `head = p[:rfind+1]`, then strip trailing slashes
unless `head` is all slashes. -/
def posixDirname (p : String) : String :=
  let head := p.data.take (lastSlashPos p.data)
  if head ≠ [] ∧ head.any (fun c => c ≠ '/') then
    ⟨(head.reverse.dropWhile (fun c => c = '/')).reverse⟩
  else ⟨head⟩

/-- `posixpath.basename`: `p[p.rfind('/')+1:]`. -/
def posixBasename (p : String) : String :=
  ⟨p.data.drop (lastSlashPos p.data)⟩

/-- Two-argument `posixpath.join` (the source only joins two components at a
time on the POSIX platform). -/
def posixJoin (a b : String) : String :=
  if headCharD b ' ' = '/' ∧ b ≠ "" then b
  else if a = "" ∨ lastCharD a ' ' = '/' then a ++ b
  else a ++ "/" ++ b

/-- `posixpath.normpath`. -/
def posixNormpath (p : String) : String :=
  if p = "" then "."
  else
    let cs := p.data
    let initialSlashes : Nat :=
      if cs.headD ' ' = '/' then
        if cs.take 2 = ['/', '/'] ∧ cs.take 3 ≠ ['/', '/', '/'] then 2 else 1
      else 0
    let comps := splitOnChar '/' p
    let newComps : List (List Char) := comps.foldl (fun acc comp =>
      if comp = [] ∨ comp = ['.'] then acc
      else if comp ≠ ['.', '.'] ∨ (initialSlashes = 0 ∧ acc = []) ∨
          acc.getLastD [] = ['.', '.'] then acc ++ [comp]
      else if acc ≠ [] then acc.dropLast
      else acc) []
    let joined : List Char := (newComps.intersperse ['/']).flatten
    let out : List Char := List.replicate initialSlashes '/' ++ joined
    if out = [] then "." else ⟨out⟩

/-! ## ntpath (collaborator of src/ust/path.py on the windows platform) -/

def ntIsSep (c : Char) : Bool := c = '\\' ∨ c = '/'

/-- Index of `ch` in `cs` at or after position `start` (`str.find(ch, start)`),
or `none`. -/
def findCharFrom (cs : List Char) (ch : Char) (start : Nat) : Option Nat :=
  match (cs.drop start).findIdx? (fun c => c = ch) with
  | some i => some (start + i)
  | none => none

/-- `ntpath.splitdrive` (drive-letter and UNC handling). -/
def ntSplitdrive (p : String) : String × String :=
  let cs := p.data
  if cs.length ≥ 2 then
    let normp := cs.map (fun c => if c = '/' then '\\' else c)
    if normp.take 2 = ['\\', '\\'] ∧ (normp.drop 2).headD ' ' ≠ '\\' then
      -- UNC path: \\machine\mountpoint
      match findCharFrom normp '\\' 2 with
      | none => ("", p)
      | some idx =>
        match findCharFrom normp '\\' (idx + 1) with
        | some idx2 =>
          if idx2 = idx + 1 then ("", p)
          else (⟨cs.take idx2⟩, ⟨cs.drop idx2⟩)
        | none => (p, "")
    else if (normp.drop 1).headD ' ' = ':' then (⟨cs.take 2⟩, ⟨cs.drop 2⟩)
    else ("", p)
  else ("", p)

/-- One step of the `ntpath.join` accumulation loop. -/
def ntJoinStep (acc : String × String) (b : String) : String × String :=
  let rd := acc.1
  let rp := acc.2
  let pd := (ntSplitdrive b).1
  let pp := (ntSplitdrive b).2
  if pp ≠ "" ∧ ntIsSep (headCharD pp ' ') then
    -- second path is absolute
    (if pd ≠ "" ∨ rd = "" then pd else rd, pp)
  else if pd ≠ "" ∧ pd ≠ rd ∧ pyLower pd ≠ pyLower rd then
    -- different drives: ignore the first path entirely
    (pd, pp)
  else
    -- same drive (possibly in different case); second path is relative
    let rd := if pd ≠ "" ∧ pd ≠ rd then pd else rd
    let rp := if rp ≠ "" ∧ ¬ ntIsSep (lastCharD rp ' ') then rp ++ "\\" else rp
    (rd, rp ++ pp)

/-- `ntpath.join(path, *paths)`. -/
def ntJoin (path : String) (paths : List String) : String :=
  let r := paths.foldl ntJoinStep (ntSplitdrive path)
  -- add separator between UNC and non-absolute path
  if r.2 ≠ "" ∧ ¬ ntIsSep (headCharD r.2 ' ') ∧ r.1 ≠ "" ∧ lastCharD r.1 ' ' ≠ ':' then
    r.1 ++ "\\" ++ r.2
  else r.1 ++ r.2

/-! ## src/ust/path.py -/

def startsTwoBackslashes (s : String) : Bool :=
  s.data.take 2 = ['\\', '\\']

/-- The anchored search `re.search(r'^\\\\\?(\\UNC)?', path)` succeeds exactly
when the path starts with the three characters backslash-backslash-question. -/
def uncExtendedForm (s : String) : Bool :=
  s.data.take 3 = ['\\', '\\', '?']

/-- `touncpath` from src/ust/path.py, as called on the windows platform. -/
def touncpath (path : String) (maximum : Nat := WINDOWS_MAX_PATH) : String :=
  if uncExtendedForm path then path
  else if path.length > maximum then
    if startsTwoBackslashes path then "\\\\?\\UNC\\" ++ ⟨path.data.drop 2⟩
    else "\\\\?\\" ++ path
  else path

mutual

/-- `re.sub(r"(?<!/):(\\+)?", ":", result)`: every colon not preceded by a
forward slash, together with the backslashes directly following it, is
replaced by a single colon.  `prev` is the character of the original string
just before the current scan position; `subColonBsSkip` consumes the
backslashes belonging to the current match and resumes the scan (the
character before the resumed position is then `:` or `\`, never `/`, so the
lookbehind cannot fail there). -/
def subColonBsAux : Option Char → List Char → List Char
  | _, [] => []
  | prev, c :: cs =>
    if c = ':' ∧ prev ≠ some '/' then ':' :: subColonBsSkip cs
    else c :: subColonBsAux (some c) cs

def subColonBsSkip : List Char → List Char
  | [] => []
  | c :: cs =>
    if c = '\\' then subColonBsSkip cs
    else if c = ':' then ':' :: subColonBsSkip cs
    else c :: subColonBsAux (some c) cs

end

/-- `re.sub(r"(?<!/):", r":\\", result)`: every colon not preceded by a
forward slash is replaced by a colon followed by one backslash. -/
def subColonInsAux : Option Char → List Char → List Char
  | _, [] => []
  | prev, c :: cs =>
    if c = ':' ∧ prev ≠ some '/' then ':' :: '\\' :: subColonInsAux (some ':') cs
    else c :: subColonInsAux (some c) cs

/-- `windows` from src/ust/path.py (executed with `os.sep = '\\'` and
`os.path = ntpath`, the values on the windows platform). -/
def windowsAdapt (path : String) : Except PyErr String := do
  if ¬ strContainsChar path '/' ∧ ¬ strContainsChar path '\\' then
    throw (.ParameterError ("Path '" ++ path ++ "' is not a valid path."))
  let result :=
    match splitOnChar '\\' path with
    | [] => ""                       -- unreachable: split yields at least one piece
    | h :: t => ntJoin ⟨h⟩ (t.map (fun cs => (⟨cs⟩ : String)))
  let result : String := ⟨result.data.map (fun c => if c = '/' then '\\' else c)⟩
  let result := if startsTwoBackslashes path ∧ ¬ startsTwoBackslashes result then
      "\\\\" ++ result
    else result
  let result : String := ⟨subColonBsAux none result.data⟩
  let result : String := ⟨subColonInsAux none result.data⟩
  if result.length > WINDOWS_MAX_PATH then
    let result := touncpath result
    if startsTwoBackslashes path then
      return result
    return result
  return result

/-- `unix` from src/ust/path.py (executed with `os.path = posixpath`). -/
def unixAdapt (path : String) : Except PyErr String := do
  if ¬ strContainsChar path '/' ∧ ¬ strContainsChar path '\\' then
    throw (.ParameterError ("Path '" ++ path ++ "' is not a valid path."))
  return ⟨(posixNormpath path).data.map (fun c => if c = '\\' then '/' else c)⟩

/-- `adaptive` from src/ust/path.py. -/
def adaptive (plat : Platform) (path : String) : Except PyErr String :=
  if plat = Platform.win then windowsAdapt path else unixAdapt path

/-! ## Mode flags (src/ust/file.py) -/

def F_NOSET : Nat := 0
def F_FORCE : Nat := 1
def F_IGNORE : Nat := 2
def F_RECURSIVE : Nat := 4
def F_UPDATE : Nat := 8
def F_TARGET_DIRECTORY : Nat := 16
def F_RM_DIR : Nat := 32
def F_RM_FILE : Nat := 64
def F_RM_EMPTY : Nat := 128
def F_REPLACE : Nat := F_FORCE

def C_SHALLOW : Nat := 256
def C_BINARY : Nat := 512
def C_TEXT : Nat := 1024
def C_IGNORE_BLANK_LINES : Nat := 2048
def C_IGNORE_CASE : Nat := 4096
def BUFFER_SIZE : Nat := 1024 * 4
def CACHE_MAX_LEN : Nat := 100

/-- The contents of the `VALUE2NAME` dict (the duplicate key
`F_FORCE = F_REPLACE = 1` ends up mapped to the later entry, `F_REPLACE`). -/
def VALUE2NAME (v : Nat) : Option String :=
  if v = 0 then some "F_NOSET"
  else if v = 1 then some "F_REPLACE"
  else if v = 2 then some "F_IGNORE"
  else if v = 4 then some "F_RECURSIVE"
  else if v = 8 then some "F_UPDATE"
  else if v = 16 then some "F_TARGET_DIRECTORY"
  else if v = 32 then some "F_RM_DIR"
  else if v = 64 then some "F_RM_FILE"
  else if v = 128 then some "F_RM_EMPTY"
  else none

/-! ## Model of the `os` / `shutil` filesystem calls.

These model the operating-system collaborators, not Python code from the
repository; the filesystem stores POSIX-style absolute paths.  Permissions
are modelled exactly where the claims exercise them: `os.access`, reading a
file for comparison or copying, and writing through `shutil.copy2` /
`cp -rf` (write permission of the target, or of its containing directory
when the target does not exist yet). -/

/-- `stat` signature: `(stat.S_IFMT(st_mode), st_size, st_mtime)`. -/
abbrev Sig := NodeType × Nat × Int

def nodeSig (n : FNode) : Sig := (n.ntype, n.content.length, n.mtime)

def fsExists (fs : FS) (p : String) : Bool := (FS.lookup fs p).isSome

def fsIsDir (fs : FS) (p : String) : Bool :=
  match FS.lookup fs p with
  | some n => n.ntype = NodeType.dir
  | none => false

def fsIsFile (fs : FS) (p : String) : Bool :=
  match FS.lookup fs p with
  | some n => n.ntype = NodeType.file
  | none => false

/-- `os.stat` (raises `FileNotFoundError` on a missing path). -/
def os_stat (fs : FS) (p : String) : Except PyErr Sig :=
  match FS.lookup fs p with
  | some n => .ok (nodeSig n)
  | none => .error (.FileNotFoundError p)

/-- `os.path.getmtime`. -/
def os_getmtime (fs : FS) (p : String) : Except PyErr Int :=
  (os_stat fs p).map (fun s => s.2.2)

/-- `os.access(p, os.R_OK)`: `False` for a missing path. -/
def os_access_r (fs : FS) (p : String) : Bool :=
  match FS.lookup fs p with
  | some n => n.readable
  | none => false

/-- `os.access(p, os.W_OK)`. -/
def os_access_w (fs : FS) (p : String) : Bool :=
  match FS.lookup fs p with
  | some n => n.writable
  | none => false

/-- `os.remove`: unlinks a non-directory; on a directory it raises
`IsADirectoryError` (it can never remove a directory). -/
def os_remove (fs : FS) (p : String) : Except PyErr FS :=
  match FS.lookup fs p with
  | none => .error (.FileNotFoundError p)
  | some n =>
    if n.ntype = NodeType.dir then .error (.IsADirectoryError p)
    else .ok (FS.erase fs p)

/-- `os.listdir`: names of the immediate children of `p`. -/
def fsListdir (fs : FS) (p : String) : List String :=
  (fs.filter (fun e => posixDirname e.1 == p && e.1 != p)).map (fun e => posixBasename e.1)

/-- Is `q` equal to `p` or strictly below the directory `p`? -/
def underPath (p q : String) : Bool :=
  q == p || (p ++ "/").data.isPrefixOf q.data

/-- `shutil.rmtree`: removes the directory `p` and everything below it. -/
def shutil_rmtree (fs : FS) (p : String) : Except PyErr FS :=
  if fsIsDir fs p then .ok (fs.filter (fun e => ¬ underPath p e.1))
  else .error (.NotADirectoryError p)

/-- Opening a file for text reading (`open(p, 'r', ...)`). -/
def pyOpenRead (fs : FS) (p : String) : Except PyErr String :=
  match FS.lookup fs p with
  | none => .error (.FileNotFoundError p)
  | some n =>
    if n.ntype = NodeType.dir then .error (.IsADirectoryError p)
    else if ¬ n.readable then .error (.PermissionError p)
    else .ok n.content

/-- Can a new write land at `dest`: an existing target must be writable, a
fresh target needs a writable containing directory. -/
def canWriteTo (fs : FS) (dest : String) : Bool :=
  match FS.lookup fs dest with
  | some n => n.writable
  | none =>
    match FS.lookup fs (posixDirname dest) with
    | some d => d.ntype == NodeType.dir && d.writable
    | none => false

/-- `shutil.copy2(src, dest)`: copies content and metadata (mtime,
permission bits); a directory `dest` receives the file under
`basename(src)`. -/
def shutil_copy2 (fs : FS) (src dest : String) : Except PyErr FS :=
  match FS.lookup fs src with
  | none => .error (.FileNotFoundError src)
  | some n =>
    if n.ntype = NodeType.dir then .error (.IsADirectoryError src)
    else if ¬ n.readable then .error (.PermissionError src)
    else
      let dest := if fsIsDir fs dest then posixJoin dest (posixBasename src) else dest
      if canWriteTo fs dest then .ok (FS.set fs dest n)
      else .error (.PermissionError dest)

/-- All ancestors of `p` from the top down, `p` included
(for `/a/b/c`: `/a`, `/a/b`, `/a/b/c`). -/
def pathPrefixes (p : String) : List String :=
  let comps := (splitOnChar '/' p).filter (fun c => c ≠ [])
  let isAbs := p.data.headD ' ' = '/'
  (List.range comps.length).map (fun i =>
    let pre := (comps.take (i + 1)).intersperse ['/'] |>.flatten
    if isAbs then ⟨'/' :: pre⟩ else ⟨pre⟩)

def dirFNode : FNode := { ntype := NodeType.dir, content := "", mtime := 0 }

/-- `os.makedirs(p, exist_ok=True)`: create every missing directory on the
way down to `p`. -/
def os_makedirs (fs : FS) (p : String) : FS :=
  (pathPrefixes p).foldl (fun acc q => if fsExists acc q then acc else FS.set acc q dirFNode) fs

/-- `os.rename` (also moves a whole directory tree). -/
def os_rename (fs : FS) (src dest : String) : Except PyErr FS :=
  match FS.lookup fs src with
  | none => .error (.FileNotFoundError src)
  | some _ =>
    .ok ((FS.erase fs dest).map (fun e =>
      if e.1 = src then (dest, e.2)
      else if (src ++ "/").data.isPrefixOf e.1.data then
        (dest ++ ⟨e.1.data.drop src.length⟩, e.2)
      else e))

/-- Copy the node at `src` and every node below it to the corresponding
paths under `dest` (used to model `shutil.copytree` and `cp -rf`). -/
def copyTreeNodes (fs : FS) (src dest : String) : FS :=
  fs.foldl (fun acc e =>
    if e.1 = src then FS.set acc dest e.2
    else if (src ++ "/").data.isPrefixOf e.1.data then
      FS.set acc (dest ++ ⟨e.1.data.drop src.length⟩) e.2
    else acc) fs

/-- `shutil.copytree(src, dest)` (`dest` must not exist yet). -/
def shutil_copytree (fs : FS) (src dest : String) : Except PyErr FS :=
  if fsExists fs dest then .error (.FileExistsError dest)
  else match FS.lookup fs src with
    | none => .error (.FileNotFoundError src)
    | some n =>
      if n.ntype ≠ NodeType.dir then .error (.NotADirectoryError src)
      else if canWriteTo fs dest then .ok (copyTreeNodes fs src dest)
      else .error (.PermissionError dest)

/-- `os.walk(top)`, top-down, as a snapshot of the given filesystem; the
fuel argument bounds the recursion depth by the number of nodes. -/
def fsWalkAux (fs : FS) : Nat → String → List (String × List String × List String)
  | 0, _ => []
  | fuel + 1, top =>
    let names := fsListdir fs top
    let dirs := names.filter (fun name => fsIsDir fs (posixJoin top name))
    let files := names.filter (fun name => fsIsFile fs (posixJoin top name))
    (top, dirs, files) :: dirs.flatMap (fun d => fsWalkAux fs fuel (posixJoin top d))

def fsWalk (fs : FS) (top : String) : List (String × List String × List String) :=
  fsWalkAux fs (fs.length + 1) top

/-- `posixpath.relpath(path, start)` for the absolute paths produced by
`os.walk` in `_copy_recursively`. -/
def relpathModel (path start : String) : String :=
  let pl := (splitOnChar '/' path).filter (fun c => c ≠ [])
  let sl := (splitOnChar '/' start).filter (fun c => c ≠ [])
  let i := (pl.zip sl).takeWhile (fun ab => ab.1 == ab.2) |>.length
  let rel := List.replicate (sl.length - i) ['.', '.'] ++ pl.drop i
  if rel = [] then "." else ⟨(rel.intersperse ['/']).flatten⟩

/-! ## src/ust/file.py: copy / move / remove engines (POSIX platform).

The transfer engines run with `os.sep = '/'` and `os.path = posixpath`;
only `adaptive` (and through it `_remove`, which claim C7 exercises for
both platforms) is embedded for the windows platform as well.  A failing
call in the `Except` embedding discards its own partial filesystem
mutations; the claims only inspect the raised error in those runs. -/

/-- `_generate_dirs` from src/ust/file.py. -/
def _generate_dirs (fs : FS) (path : String) : FS :=
  let dirname := posixDirname path
  let fs := if dirname ≠ "" ∧ ¬ fsExists fs dirname then os_makedirs fs dirname else fs
  if lastCharD path ' ' = '/' ∧ ¬ fsExists fs path then os_makedirs fs path else fs

/-- `_copy_by_command` on the POSIX platform: `os.system('cp -rf src dest')`,
raising `OSError` on a nonzero exit code.  The `cp` collaborator is modelled
as succeeding exactly when the source is readable and the target location is
writable; into an existing directory it copies under `basename(src)`.  (On
success real `cp -rf` stamps a fresh mtime; no claim exercises that path, and
the model keeps the source's mtime.) -/
def _copy_by_command (fs : FS) (src dest : String) : Except PyErr FS :=
  let tgt := if fsIsDir fs dest then posixJoin dest (posixBasename src) else dest
  match FS.lookup fs src with
  | none => .error (.OSError ("Can't copy file '" ++ src ++ "' to '" ++ dest ++ "'"))
  | some n =>
    if n.readable ∧ canWriteTo fs tgt then
      .ok (if n.ntype = NodeType.dir then copyTreeNodes fs src tgt else FS.set fs tgt n)
    else .error (.OSError ("Can't copy file '" ++ src ++ "' to '" ++ dest ++ "'"))

/-- The shared tail of `_copyfile`: `try: shutil.copy2(...) except
(shutil.Error, PermissionError, OSError): _copy_by_command(...)`. -/
def copyfileFinish (fs : FS) (src dest : String) : Except PyErr FS :=
  match shutil_copy2 fs src dest with
  | .ok fs' => .ok fs'
  | .error e => if e.isOSFamily then _copy_by_command fs src dest else .error e

/-- `_copyfile` from src/ust/file.py. -/
def _copyfile (src dest : String) (mode : Nat) (fs : FS) : Except PyErr FS := do
  let src ← adaptive .posix src
  let dest ← adaptive .posix dest
  let dest := if fsIsDir fs dest then posixJoin dest (posixBasename src) else dest
  if fsExists fs dest then
    if mode &&& F_REPLACE ≠ 0 then do
      let fs ← os_remove fs dest
      copyfileFinish fs src dest
    else if mode &&& F_UPDATE ≠ 0 then do
      let msrc ← os_getmtime fs src
      let mdest ← os_getmtime fs dest
      if msrc ≤ mdest then
        return fs
      let fs ← os_remove fs dest
      copyfileFinish fs src dest
    else if mode &&& F_IGNORE ≠ 0 then
      return fs
    else copyfileFinish fs src dest
  else copyfileFinish fs src dest

/-- One `os.walk` triple of `_copy_recursively`: create the missing
destination folders, then `_copyfile` each file. -/
def copyRecStep (src dest : String) (mode : Nat) (fs : FS)
    (triple : String × List String × List String) : Except PyErr FS := do
  let root := triple.1
  let fs := triple.2.1.foldl (fun acc folder =>
    let src_folder := posixJoin root folder
    let dest_folder := posixJoin dest (relpathModel src_folder src)
    if ¬ fsExists acc dest_folder then os_makedirs acc dest_folder else acc) fs
  triple.2.2.foldlM (fun acc file =>
    let src_file := posixJoin root file
    let dest_file := posixJoin dest (relpathModel src_file src)
    _copyfile src_file dest_file mode acc) fs

/-- `_copy_recursively` from src/ust/file.py. -/
def _copy_recursively (src dest : String) (mode : Nat) (fs : FS) : Except PyErr FS :=
  if ¬ fsIsDir fs src then .ok fs
  else (fsWalk fs src).foldlM (copyRecStep src dest mode) fs

/-- The regex `r'^[a-zA-Z]+:[/\\]+$'` of `_remove`: one or more ASCII
letters, a colon, then one or more slashes or backslashes to the end. -/
def winDriversSearch (s : String) : Bool :=
  let letters := s.data.takeWhile (fun c => c.isAlpha)
  let rest := s.data.drop letters.length
  letters != [] &&
    match rest with
    | ':' :: seps => seps != [] && seps.all (fun c => c = '/' ∨ c = '\\')
    | _ => false

/-- `_remove` from src/ust/file.py. -/
def _remove (plat : Platform) (path : String) (dest : String) (mode : Nat)
    (fs : FS) : Except PyErr FS := do
  if dest ≠ "" then
    throw (.InvalidArgType "Unsupported arg 'dest'")
  -- when remove mode not set, both file and directory will be removed
  let mode := if mode &&& F_RM_DIR = 0 ∧ mode &&& F_RM_FILE = 0 then F_RM_FILE ||| F_RM_DIR else mode
  -- when use -d --dir, delete the path when it is dir and empty
  let mode := if mode &&& F_RM_EMPTY ≠ 0 then F_RM_EMPTY else mode
  let path ← adaptive plat path
  if plat = Platform.win ∧ winDriversSearch path then
    throw (.FileRemoveError ("Can't remove windows driver: '" ++ path ++ "'"))
  if plat = Platform.posix ∧ pyStrip path = "/" then
    throw (.FileRemoveError "Can't remove the unix root '/'")
  if fsIsDir fs path then
    if mode &&& F_RM_EMPTY ≠ 0 ∧ (fsListdir fs path).length = 0 then
      os_remove fs path
    else if mode &&& F_RM_DIR ≠ 0 then
      shutil_rmtree fs path
    else
      return fs
  else if fsIsFile fs path ∧ mode &&& F_RM_FILE ≠ 0 then
    os_remove fs path
  else do
    -- the error message interpolates os.stat(path), which is evaluated first
    let _ ← os_stat fs path
    throw (.FileRemoveError ("Can't remove file '" ++ path ++ "'"))

/-! ## The dispatcher `entry` -/

/-- The `Paths` union `Union[str, List, Set]` of src/ust/file.py.  A Python
set is represented together with its iteration order (a `list(src)` of it). -/
inductive PySrc where
  | str (s : String)
  | list (ps : List String)
  | set (ps : List String)
  deriving DecidableEq, Repr

def PySrc.isCollection : PySrc → Bool
  | .str _ => false
  | .list _ => true
  | .set _ => true

/-- `"*" in src or "?" in src`. -/
def hasWildcard (s : String) : Bool :=
  strContainsChar s '*' || strContainsChar s '?'

/-- The `glob.glob` collaborator is a parameter: a function from the pattern
and the `recursive` flag to the matched paths. -/
abbrev GlobFn := String → Bool → List String

/-- Path resolution performed by `entry`. -/
def resolvePaths (globFn : GlobFn) (src : PySrc) (mode : Nat) : List String :=
  match src with
  | .str s => if hasWildcard s then globFn s (mode &&& F_RECURSIVE ≠ 0) else [s]
  | .list ps => ps
  | .set ps => ps

/-- The `for p in paths: func(p, dest, mode)` loop of `entry`.  The result
carries the filesystem reached so far together with the first raised
exception, if any: an exception aborts the loop but the effects of the
completed iterations stay. -/
def entryLoop (func : String → String → Nat → FS → Except PyErr FS)
    (dest : String) (mode : Nat) : List String → FS → FS × Option PyErr
  | [], fs => (fs, none)
  | p :: ps, fs =>
    match func p dest mode fs with
    | .ok fs' => entryLoop func dest mode ps fs'
    | .error e => (fs, some e)

/-- `entry` from src/ust/file.py.  The `TypeError` branch for a `src` value
outside the `Paths` union cannot arise for `PySrc`. -/
def entry (globFn : GlobFn) (func : String → String → Nat → FS → Except PyErr FS)
    (src : PySrc) (dest : String) (mode : Nat) (unsupported_mode : Nat)
    (fs : FS) : FS × Option PyErr :=
  if mode &&& unsupported_mode ≠ 0 then
    (fs, some (.UnsupportedModeError
      ("Unsupported mode: '" ++ (VALUE2NAME unsupported_mode).getD "Unknown" ++ ":"
        ++ toString unsupported_mode ++ "'")))
  else if mode &&& F_TARGET_DIRECTORY ≠ 0 ∧ ¬ src.isCollection then
    (fs, some (.InvalidArgType "Only List or Set type is allowed when F_TARGET_DIRECTORY is set."))
  else
    entryLoop func dest mode (resolvePaths globFn src mode) fs

/-- `remove` from src/ust/file.py. -/
def remove (globFn : GlobFn) (src : PySrc) (mode : Nat) (fs : FS) : FS × Option PyErr :=
  entry globFn (_remove Platform.posix) src "" mode
    (F_REPLACE ||| F_UPDATE ||| F_IGNORE ||| F_TARGET_DIRECTORY) fs

/-- The shared tail of `_copytree`: `try: shutil.copytree(...) except
(shutil.Error, PermissionError): _copy_by_command(...)`. -/
def copytreeFinish (fs : FS) (src dest : String) : Except PyErr FS :=
  match shutil_copytree fs src dest with
  | .ok fs' => .ok fs'
  | .error e => if e.isPermission then _copy_by_command fs src dest else .error e

/-- Propagate the exception of a `remove` call made from inside an engine. -/
def liftRemove (r : FS × Option PyErr) : Except PyErr FS :=
  match r.2 with
  | some e => .error e
  | none => .ok r.1

/-- `_copytree` from src/ust/file.py. -/
def _copytree (globFn : GlobFn) (src dest : String) (mode : Nat) (fs : FS) :
    Except PyErr FS := do
  let src ← adaptive .posix src
  let dest ← adaptive .posix dest
  if fsExists fs dest then
    if mode &&& F_RECURSIVE ≠ 0 then
      _copy_recursively src dest mode fs
    else if mode &&& F_REPLACE ≠ 0 then do
      let fs ← liftRemove (remove globFn (.str dest) F_NOSET fs)
      copytreeFinish fs src dest
    else if mode &&& F_UPDATE ≠ 0 then do
      let msrc ← os_getmtime fs src
      let mdest ← os_getmtime fs dest
      if msrc ≤ mdest then
        return fs
      let fs ← liftRemove (remove globFn (.str dest) F_NOSET fs)
      copytreeFinish fs src dest
    else if mode &&& F_IGNORE ≠ 0 then
      return fs
    else copytreeFinish fs src dest
  else copytreeFinish fs src dest

/-- `_copy` from src/ust/file.py. -/
def _copy (globFn : GlobFn) (src dest : String) (mode : Nat) (fs : FS) :
    Except PyErr FS := do
  let src ← adaptive .posix src
  let dest ← adaptive .posix dest
  if ¬ os_access_r fs src then
    throw (.PermissionError ("Permission denied: " ++ src))
  -- the source checks os.access(src, os.W_OK) here, with dest in the message
  if ¬ os_access_w fs src then
    throw (.PermissionError ("Permission denied: " ++ dest))
  if src = dest then
    throw (.ValueError "Source and destination are the same file.")
  let fs := _generate_dirs fs dest
  if ¬ fsExists fs dest then
    if fsIsDir fs src then _copytree globFn src dest mode fs
    else _copyfile src dest mode fs
  else if fsIsDir fs dest then
    if fsIsDir fs src then _copytree globFn src dest mode fs
    else _copyfile src dest mode fs
  else _copyfile src dest mode fs

/-- `copy` from src/ust/file.py. -/
def copy (globFn : GlobFn) (src : PySrc) (dest : String) (mode : Nat) (fs : FS) :
    FS × Option PyErr :=
  entry globFn (_copy globFn) src dest mode (F_RM_DIR ||| F_RM_FILE ||| F_RM_EMPTY) fs

/-! ## Compare-cache type (the module-global `_cache`) and `_sig` -/

abbrev CacheKey := String × String × Sig × Sig

/-- `_cache` maps `(file1, file2, sig1, sig2)` to the stored outcome; the
stored value is `Option Bool` because `cmpfile` can store `None`. -/
abbrev Cache := List (CacheKey × Option Bool)

/-- `_cache.get(key)`: a stored `None` is indistinguishable from a missing
key for the caller's `is not None` test. -/
def cacheGet : Cache → CacheKey → Option Bool
  | [], _ => none
  | (k, v) :: rest, key => if k = key then v else cacheGet rest key

def cacheSet (c : Cache) (key : CacheKey) (v : Option Bool) : Cache :=
  (key, v) :: c.filter (fun e => e.1 ≠ key)

/-- `_sig` from src/ust/file.py. -/
def _sig (fs : FS) (file : String) : Except PyErr Sig := os_stat fs file

/-- `_move` from src/ust/file.py.  The global `_cache` is threaded as an
explicit argument; `_move` clears it in the same-directory branch. -/
def _move (globFn : GlobFn) (src dest : String) (mode : Nat) (fs : FS)
    (cache : Cache) : Except PyErr (FS × Cache) := do
  if mode &&& F_FORCE = 0 ∧ fsExists fs dest then
    throw (.FileMoveError ("Can't move '" ++ src ++ "' to '" ++ dest ++ "': File exists."))
  if posixDirname src = posixDirname dest then do
    let sigSrc ← _sig fs src
    let sigDest ← _sig fs dest
    if sigSrc.1 ≠ sigDest.1 ∧ mode &&& F_RECURSIVE = 0 then
      -- _cache.clear() precedes the raise; the Except embedding keeps only the error
      throw (.FileMoveError ("Can't move '" ++ src ++ "' to '" ++ dest ++ "': Different file type."))
    let fs ← _remove Platform.posix dest "" mode fs
    let fs ← os_rename fs src dest
    return (fs, [])
  let fs ← _copy globFn src dest mode fs
  -- the source passes dest as _remove's (rejected) positional 'dest' argument
  let fs ← _remove Platform.posix src dest mode fs
  return (fs, cache)

/-! ## The compare engine -/

/-- The chunked loop of `_cmp_binaries`: read a `BUFFER_SIZE` chunk of
file1, read as many bytes of file2, compare; an empty file1 chunk means
equal so far, hence `True`. -/
def cmpBinLoop : List Char → List Char → Bool
  | [], _ => true
  | b1 :: bs1, b2 =>
    let c1 := (b1 :: bs1).take BUFFER_SIZE
    let c2 := b2.take c1.length
    if c1 ≠ c2 then false
    else cmpBinLoop ((b1 :: bs1).drop BUFFER_SIZE) (b2.drop BUFFER_SIZE)
  termination_by b1 _ => b1.length
  decreasing_by simp_wf; simp [BUFFER_SIZE]

/-- `_cmp_binaries` from src/ust/file.py (the bytes of the files are the
characters of the modelled content). -/
def _cmp_binaries (fs : FS) (file1 file2 : String) : Except PyErr Bool := do
  let c1 ← pyOpenRead fs file1
  let c2 ← pyOpenRead fs file2
  return cmpBinLoop c1.data c2.data

/-- The `for line1, line2 in zip(f1, f2)` loop of `_cmp_text`. -/
def cmpTextLoop (mode : Nat) : List (String × String) → Bool
  | [] => true
  | (line1, line2) :: rest =>
    if mode &&& C_IGNORE_BLANK_LINES ≠ 0 ∧ pyStrip line1 = "" ∧ pyStrip line2 = "" then
      cmpTextLoop mode rest
    else if mode &&& C_IGNORE_CASE ≠ 0 ∧ pyLower line1 ≠ pyLower line2 then
      false
    else if line1 ≠ line2 then
      false
    else cmpTextLoop mode rest

/-- `_cmp_text` from src/ust/file.py. -/
def _cmp_text (fs : FS) (file1 file2 : String) (mode : Nat) : Except PyErr Bool := do
  let c1 ← pyOpenRead fs file1
  let c2 ← pyOpenRead fs file2
  return cmpTextLoop mode ((splitLinesKeep c1).zip (splitLinesKeep c2))

/-- `cmpfile` from src/ust/file.py.  The result of the Python function is
`True`, `False` or an implicit `None` (when neither `C_BINARY` nor `C_TEXT`
is set), hence `Option Bool`; the threaded global `_cache` is returned
alongside.  The two early `return False` exits of the binary branch are
written with their guarding `mode & C_BINARY` conjoined. -/
def cmpfile (fs : FS) (cache : Cache) (file1 file2 : String) (mode : Nat) :
    Except PyErr (Option Bool × Cache) := do
  if mode &&& C_SHALLOW ≠ 0 ∧ mode &&& C_TEXT ≠ 0 then
    throw (.UnsupportedModeError "Can't set both C_SHALLOW and C_TEXT")
  if mode &&& C_BINARY ≠ 0 ∧ mode &&& C_TEXT ≠ 0 then
    throw (.UnsupportedModeError "Can't set both C_BINARY and C_TEXT")
  if file1 = file2 then
    return (some true, cache)
  let s1 ← _sig fs file1
  let s2 ← _sig fs file2
  if s1.1 ≠ NodeType.file ∨ s2.1 ≠ NodeType.file then
    throw (.InvalidArgType "Can't compare non-regular files.")
  if s2 = s1 ∧ mode &&& C_SHALLOW ≠ 0 ∧ mode &&& C_BINARY = 0 then
    return (some true, cache)
  match cacheGet cache (file1, file2, s1, s2) with
  | some outcome => return (some outcome, cache)
  | none => do
    if mode &&& C_BINARY ≠ 0 ∧ s1.2.1 ≠ s2.2.1 ∧ mode &&& C_SHALLOW = 0 then
      return (some false, cache)
    if mode &&& C_BINARY ≠ 0 ∧ s1.2.1 > s2.2.1 then
      return (some false, cache)
    let outcomeB : Option Bool ←
      if mode &&& C_BINARY ≠ 0 then some <$> _cmp_binaries fs file1 file2
      else pure none
    let outcome : Option Bool ←
      if mode &&& C_TEXT ≠ 0 then some <$> _cmp_text fs file1 file2 mode
      else pure outcomeB
    let cache := if cache.length > CACHE_MAX_LEN then [] else cache
    let cache := cacheSet cache (file1, file2, s1, s2) outcome
    return (outcome, cache)

/-- `cmpdir` from src/ust/file.py (the cache is threaded through the
`cmpfile` calls; the walk is a snapshot of the starting filesystem). -/
def cmpdirStep (fs : FS) (mode : Nat)
    (acc : Bool × Cache) (entry2 : String × String) : Except PyErr (Bool × Cache) := do
  if ¬ acc.1 then
    return acc
  let srcFile := entry2.1
  let destFile := entry2.2
  let r ← cmpfile fs acc.2 srcFile destFile mode
  return (r.1.getD false, r.2)

def cmpdir (fs : FS) (cache : Cache) (dir1 dir2 : String) (mode : Nat) :
    Except PyErr (Bool × Cache) := do
  if dir1 = dir2 then
    return (true, cache)
  if ¬ fsIsDir fs dir1 ∨ ¬ fsIsDir fs dir2 then
    return (false, cache)
  let pairs := (fsWalk fs dir1).flatMap (fun triple =>
    triple.2.2.map (fun file =>
      let src := posixJoin triple.1 file
      (src, posixJoin dir2 (relpathModel src dir1))))
  pairs.foldlM (cmpdirStep fs mode) (true, cache)

/-! ## grep and its regex collaborator.

The `re` module is an external collaborator.  The patterns exercised by the
spec's examples are fixed-length sequences of single-character matchers
with no capture groups; for that fragment a direct model of `re.match`
(anchored at the start), `re.search` (leftmost match) and `re.findall`
(non-overlapping, left to right) is exact. -/

inductive CharClass where
  /-- a literal character -/
  | lit (c : Char)
  /-- the class `\w` (ASCII letters, digits and underscore) -/
  | wordChar
  deriving DecidableEq, Repr

def ccMatch : CharClass → Char → Bool
  | .lit d, c => c = d
  | .wordChar, c => c.isAlphanum || c = '_'

/-- A compiled pattern of the modelled fragment. -/
abbrev RePat := List CharClass

/-- Match the whole pattern starting at the head of `cs`; returns the
matched characters. -/
def fixedMatchList : RePat → List Char → Option (List Char)
  | [], _ => some []
  | _ :: _, [] => none
  | cc :: pcs, c :: cs =>
    if ccMatch cc c then (fixedMatchList pcs cs).map (fun m => c :: m) else none

/-- `pattern.match(s)`: anchored at the start of the string. -/
def reMatchAt (p : RePat) (s : String) : Option String :=
  (fixedMatchList p s.data).map (fun m => (⟨m⟩ : String))

def reSearchList (p : RePat) : List Char → Option (List Char)
  | [] => fixedMatchList p []
  | c :: cs =>
    match fixedMatchList p (c :: cs) with
    | some m => some m
    | none => reSearchList p cs

/-- `pattern.search(s)`: the leftmost match anywhere in the string. -/
def reSearch (p : RePat) (s : String) : Option String :=
  (reSearchList p s.data).map (fun m => (⟨m⟩ : String))

def reFindallList (p : RePat) : List Char → List (List Char)
  | [] => match fixedMatchList p [] with
    | some m => [m]
    | none => []
  | c :: cs =>
    match fixedMatchList p (c :: cs) with
    | some m =>
      if h : m = [] then m :: reFindallList p cs
      else m :: reFindallList p ((c :: cs).drop m.length)
    | none => reFindallList p cs
  termination_by cs => cs.length
  decreasing_by
    all_goals simp_wf
    all_goals (have hm : 0 < m.length := List.length_pos.mpr h; simp [List.length_drop]; omega)

/-- `pattern.findall(s)` for the modelled fragment: non-overlapping matches
scanned left to right. -/
def reFindall (p : RePat) (s : String) : List String :=
  (reFindallList p s.data).map (fun m => (⟨m⟩ : String))

/-- `match.group(index)` for a groupless pattern: group 0 is the whole
match, any positive index raises `IndexError("no such group")`. -/
def pyGroup (m : String) (index : Int) : Except PyErr String :=
  if index = 0 then .ok m else .error (.IndexError "no such group")

/-- `is_filepath` from src/ust/path.py on the POSIX platform: an existence
check first, then the regex `r"^(/)?([a-zA-Z0-9_.-]+(/)?)+$"`. -/
def unixPathCharOk (c : Char) : Bool :=
  c.isAlphanum || c = '_' || c = '.' || c = '-'

def noDoubleSlash : List Char → Bool
  | c1 :: c2 :: rest => ¬ (c1 = '/' ∧ c2 = '/') && noDoubleSlash (c2 :: rest)
  | _ => true

/-- `([a-zA-Z0-9_.-]+(/)?)+` anchored on the whole input: equivalently, a
nonempty string that starts with a class character, draws every character
from the class or `/`, and never has two consecutive slashes. -/
def unixPathGroups (cs : List Char) : Bool :=
  match cs with
  | [] => false
  | c :: _ =>
    unixPathCharOk c && cs.all (fun d => unixPathCharOk d || d = '/') && noDoubleSlash cs

def unixPathRegex (s : String) : Bool :=
  match s.data with
  | [] => false
  | '/' :: rest => unixPathGroups rest
  | cs => unixPathGroups cs

def is_filepath (fs : FS) (anchor : String) : Bool :=
  fsExists fs anchor || unixPathRegex anchor

/-- The per-line loop of `_grep_file`: `pattern.findall` for a negative
index, otherwise `pattern.search` and `match.group(index)`. -/
def grepFileLoop (pattern : RePat) (index : Int) : List String → Except PyErr (List String)
  | [] => .ok []
  | line :: rest =>
    if index < 0 then do
      let more ← grepFileLoop pattern index rest
      return reFindall pattern line ++ more
    else
      match reSearch pattern line with
      | none => grepFileLoop pattern index rest
      | some m => do
        let g ← pyGroup m index
        let more ← grepFileLoop pattern index rest
        return g :: more

/-- `_grep_file` from src/ust/file.py (iterating the open file yields the
lines with their newline kept). -/
def _grep_file (fs : FS) (anchor : String) (pattern : RePat) (index : Int) :
    Except PyErr (List String) := do
  let content ← pyOpenRead fs anchor
  grepFileLoop pattern index (splitLinesKeep content)

/-- The per-line loop of `_grep_string`: identical to the file loop except
that it uses `pattern.match`, anchored at the start of the line. -/
def grepStringLoop (pattern : RePat) (index : Int) : List String → Except PyErr (List String)
  | [] => .ok []
  | line :: rest =>
    if index < 0 then do
      let more ← grepStringLoop pattern index rest
      return reFindall pattern line ++ more
    else
      match reMatchAt pattern line with
      | none => grepStringLoop pattern index rest
      | some m => do
        let g ← pyGroup m index
        let more ← grepStringLoop pattern index rest
        return g :: more

/-- `_grep_string` from src/ust/file.py (`anchor.splitlines()`). -/
def _grep_string (anchor : String) (pattern : RePat) (index : Int) :
    Except PyErr (List String) :=
  grepStringLoop pattern index (pySplitlines anchor)

/-- `grep` from src/ust/file.py on the POSIX platform (the `encoding`
argument does not affect the model). -/
def grep (fs : FS) (anchor : String) (pattern : RePat) (index : Int) :
    Except PyErr (List String) :=
  let anchor := if anchor.length > WINDOWS_MAX_PATH then ⟨anchor.data.take WINDOWS_MAX_PATH⟩ else anchor
  if is_filepath fs anchor then
    if fsIsFile fs anchor then _grep_file fs anchor pattern index
    else .error (.InvalidArgType ("The path '" ++ anchor ++ "' is not a file or its not found."))
  else _grep_string anchor pattern index

/-! ## Reduction helpers for the `Except` monad -/

@[simp] theorem except_bind_ok {e a b : Type} (x : a) (f : a → Except e b) :
    (Except.ok x >>= f) = f x := rfl

@[simp] theorem except_bind_error {e a b : Type} (err : e) (f : a → Except e b) :
    ((Except.error err : Except e a) >>= f) = Except.error err := rfl

@[simp] theorem except_pure_eq {e a : Type} (x : a) : (pure x : Except e a) = Except.ok x := rfl

@[simp] theorem except_map_ok {e a b : Type} (f : a → b) (x : a) :
    (f <$> (Except.ok x : Except e a)) = Except.ok (f x) := rfl

@[simp] theorem except_map_error {e a b : Type} (f : a → b) (err : e) :
    (f <$> (Except.error err : Except e a)) = Except.error err := rfl

/-! ## Fixtures used by the claim theorems -/

/-- `o\w` compiled: a literal `o` followed by one word character. -/
def patOW : RePat := [CharClass.lit 'o', CharClass.wordChar]

def fsHello : FS :=
  [("/t", dirFNode), ("/t/1.txt", { ntype := NodeType.file, content := "Hello World", mtime := 5 })]

def fsC1 : FS :=
  [("/t", dirFNode),
   ("/t/x", { ntype := NodeType.file, content := "A\n", mtime := 1 }),
   ("/t/y", { ntype := NodeType.file, content := "a\n", mtime := 2 })]

def fsC4 : FS :=
  [("/s", dirFNode),
   ("/d", { ntype := NodeType.dir, content := "", mtime := 0, readable := true, writable := false }),
   ("/s/f", { ntype := NodeType.file, content := "data", mtime := 1 })]

def fsC5 : FS :=
  [("/t", dirFNode), ("/t/d", dirFNode),
   ("/t/f", { ntype := NodeType.file, content := "x", mtime := 1 })]

def fsC5n : FS :=
  [("/t", dirFNode), ("/t/n", dirFNode),
   ("/t/n/a", { ntype := NodeType.file, content := "x", mtime := 1 })]

def fsC6 : FS :=
  [("/t", dirFNode), ("/t/a", { ntype := NodeType.file, content := "data", mtime := 1 })]

def fsC6b : FS :=
  [("/t", dirFNode), ("/u", dirFNode),
   ("/t/a", { ntype := NodeType.file, content := "data", mtime := 1 })]

def noGlob : GlobFn := fun _ _ => []

/-! ## Claim theorems -/

/-- C1: the claim states that with `C_TEXT | C_IGNORE_CASE` set, lines that
are equal after lowercasing compare equal, so a case-only difference never
makes `cmpfile` return false.  The code violates this: the `IGNORE_CASE`
test does not gate the final `line1 != line2` comparison, so two files whose
single lines `"A\n"` and `"a\n"` agree after lowercasing still compare
unequal (`cmpfile` returns `False`). -/
theorem c1_ignore_case_not_gating :
    (cmpfile fsC1 [] "/t/x" "/t/y" (C_TEXT ||| C_IGNORE_CASE)).map Prod.fst
        = Except.ok (some false)
      ∧ pyLower "A\n" = pyLower "a\n" := by
  constructor
  · rfl
  · rfl

/-- C2: the claim states that grep over a non-path-like anchor with the
default index returns, per line, the full text of the first match anywhere
in the line, so `grep "Hello World" (o\w) 0 = ["or"]`.  The code's string
branch uses `pattern.match`, anchored at the start of the line, and returns
`[]` for that input; the file branch (`pattern.search`) does return
`["or"]` for the same content. -/
theorem c2_grep_string_is_anchored :
    grep [] "Hello World" patOW 0 = Except.ok []
      ∧ grep fsHello "/t/1.txt" patOW 0 = Except.ok ["or"] := by
  constructor
  · rfl
  · rfl

/-- C4: the claim states that copy validates that the destination path's
containing directory is writable and raises `PermissionDenied` otherwise.
The code checks `os.access(src, os.W_OK)` — the source again — so with a
readable and writable source and a non-writable destination directory no
`PermissionError` is raised at validation; the run instead fails much later
with `OSError` out of the external-command fallback. -/
theorem c4_no_destination_permission_check :
    os_access_r fsC4 "/s/f" = true
      ∧ os_access_w fsC4 "/s/f" = true
      ∧ os_access_w fsC4 "/d" = false
      ∧ copy noGlob (PySrc.str "/s/f") "/d/g" F_REPLACE fsC4
          = (fsC4, some (PyErr.OSError "Can't copy file '/s/f' to '/d/g'")) := by
  refine ⟨rfl, rfl, rfl, ?_⟩
  rfl

/-- C5: the claim states that with `F_RM_EMPTY` set, remove deletes exactly
the empty directories and silently skips files and non-empty directories.
The code diverges three ways: the default-mode normalization runs first and
overwrites a bare `F_RM_EMPTY` with `F_RM_FILE | F_RM_DIR` (128 has neither
low bit), so a plain file is removed and a non-empty directory is removed
recursively; and when `F_RM_EMPTY` survives (set together with `F_RM_DIR`)
an empty directory is handed to `os.remove`, which cannot remove
directories and raises. -/
theorem c5_rm_empty_divergence :
    _remove Platform.posix "/t/f" "" F_RM_EMPTY fsC5
        = Except.ok [("/t", dirFNode), ("/t/d", dirFNode)]
      ∧ _remove Platform.posix "/t/n" "" F_RM_EMPTY fsC5n
          = Except.ok [("/t", dirFNode)]
      ∧ _remove Platform.posix "/t/d" "" (F_RM_EMPTY ||| F_RM_DIR) fsC5
          = Except.error (PyErr.IsADirectoryError "/t/d") := by
  refine ⟨?_, ?_, ?_⟩ <;> rfl

/-- C6: the claim states that a same-parent-directory move with `F_FORCE`
to a not-yet-existing destination succeeds as a rename.  The code stats the
destination unconditionally (`_sig(dest)`), so the move raises
`FileNotFoundError`; a cross-directory move instead copies and then calls
`_remove(src, dest, mode=mode)`, whose non-empty `dest` argument raises
`InvalidArgType`, so no flavor of the claimed move succeeds. -/
theorem c6_move_to_missing_dest_raises :
    _move noGlob "/t/a" "/t/b" F_FORCE fsC6 []
        = Except.error (PyErr.FileNotFoundError "/t/b")
      ∧ _move noGlob "/t/a" "/u/b" F_FORCE fsC6b []
          = Except.error (PyErr.InvalidArgType "Unsupported arg 'dest'") := by
  constructor
  · rfl
  · rfl

/-- C8 counterexample: the claim quantifies over every mode value, but with
`C_SHALLOW | C_TEXT` the mode check raises before the identity shortcut is
reached, so `cmpfile f f mode` is not true for that mode. -/
theorem c8_counterexample :
    cmpfile [] [] "/a/p" "/a/p" (C_SHALLOW ||| C_TEXT)
      = Except.error (PyErr.UnsupportedModeError "Can't set both C_SHALLOW and C_TEXT") := by
  rfl

/-- C8 (amended): for every mode that does not combine `C_SHALLOW` with
`C_TEXT` nor `C_BINARY` with `C_TEXT`, `cmpfile f f mode` returns `True`
through the identity shortcut, on any filesystem whatsoever — in particular
when `f` is unreadable or absent — and leaves the cache untouched. -/
theorem c8_identity_shortcut (fs : FS) (cache : Cache) (f : String) (mode : Nat)
    (h1 : ¬ (mode &&& C_SHALLOW ≠ 0 ∧ mode &&& C_TEXT ≠ 0))
    (h2 : ¬ (mode &&& C_BINARY ≠ 0 ∧ mode &&& C_TEXT ≠ 0)) :
    cmpfile fs cache f f mode = Except.ok (some true, cache) := by
  simp [cmpfile, h1, h2]

/-- C8 witness: the amended theorem applied at an unreadable, in fact
absent, file on the empty filesystem. -/
theorem c8_identity_shortcut_witness :
    cmpfile [] [] "/no/such/file" "/no/such/file" C_TEXT = Except.ok (some true, []) :=
  c8_identity_shortcut [] [] "/no/such/file" C_TEXT (by decide) (by decide)

/-- C7: on the POSIX platform removing the root path `/`, and on the
windows platform removing a drive root written `C:\` or `C:/`, raises
`FileRemoveError` for every mode value and on every filesystem (nothing is
consulted or removed: the guard precedes every filesystem access). -/
theorem c7_remove_root_guard (fs : FS) (mode : Nat) :
    _remove Platform.posix "/" "" mode fs
        = Except.error (PyErr.FileRemoveError "Can't remove the unix root '/'")
      ∧ _remove Platform.win "C:\\" "" mode fs
          = Except.error (PyErr.FileRemoveError "Can't remove windows driver: 'C:\\'")
      ∧ _remove Platform.win "C:/" "" mode fs
          = Except.error (PyErr.FileRemoveError "Can't remove windows driver: 'C:\\'") :=
  ⟨rfl, rfl, rfl⟩

/-- The `for` loop of `entry` over `ps1 ++ p :: ps2`: if the loop runs `ps1`
to completion reaching `fs1` and `func` then raises `e` on `p`, the loop
stops with exactly the state `fs1` and the error `e`, whatever `ps2` is. -/
theorem entryLoop_append_abort
    (func : String → String → Nat → FS → Except PyErr FS)
    (dest : String) (mode : Nat) (ps1 ps2 : List String) (p : String)
    (fs fs1 : FS) (e : PyErr)
    (hdone : entryLoop func dest mode ps1 fs = (fs1, none))
    (hfail : func p dest mode fs1 = Except.error e) :
    entryLoop func dest mode (ps1 ++ p :: ps2) fs = (fs1, some e) := by
  induction ps1 generalizing fs with
  | nil =>
    simp [entryLoop] at hdone
    subst hdone
    simp [entryLoop, hfail]
  | cons q qs ih =>
    simp only [entryLoop, List.cons_append] at hdone ⊢
    cases hq : func q dest mode fs with
    | ok fs' =>
      rw [hq] at hdone
      exact ih fs' hdone
    | error e' =>
      rw [hq] at hdone
      exact absurd (congrArg Prod.snd hdone) (by simp)

/-- C9: with a supported mode, `entry` over an explicit list is exactly the
sequential left-to-right loop of the operation callback; and when the
callback raises on the `N`-th resolved path, dispatch stops with the state
produced by the first `N−1` completed calls — their effects stand
(no rollback) and the remaining paths are never processed (the result does
not depend on `ps2`). -/
theorem c9_entry_sequential_abort (globFn : GlobFn)
    (func : String → String → Nat → FS → Except PyErr FS)
    (ps1 ps2 : List String) (p dest : String) (mode u : Nat)
    (fs fs1 : FS) (e : PyErr)
    (hu : mode &&& u = 0)
    (hdone : entryLoop func dest mode ps1 fs = (fs1, none))
    (hfail : func p dest mode fs1 = Except.error e) :
    entry globFn func (PySrc.list (ps1 ++ p :: ps2)) dest mode u fs = (fs1, some e)
      ∧ ∀ qs fs0, entry globFn func (PySrc.list qs) dest mode u fs0
          = entryLoop func dest mode qs fs0 := by
  have hentry : ∀ qs fs0, entry globFn func (PySrc.list qs) dest mode u fs0
      = entryLoop func dest mode qs fs0 := by
    intro qs fs0
    simp [entry, hu, PySrc.isCollection, resolvePaths]
  refine ⟨?_, hentry⟩
  rw [hentry]
  exact entryLoop_append_abort func dest mode ps1 ps2 p fs fs1 e hdone hfail

/-- C9 witness: a three-path dispatch whose callback erases each path but
fails on the second; the first deletion stands, the third path is untouched. -/
theorem c9_entry_sequential_abort_witness :
    entry noGlob
        (fun p _ _ fs => if p = "/t/bad" then Except.error (PyErr.OSError "boom")
          else Except.ok (FS.erase fs p))
        (PySrc.list ["/t/a", "/t/bad", "/t/c"]) "" F_NOSET F_RM_EMPTY fsC5
      = (FS.erase fsC5 "/t/a", some (PyErr.OSError "boom"))
      ∧ ∀ qs fs0, entry noGlob
          (fun p _ _ fs => if p = "/t/bad" then Except.error (PyErr.OSError "boom")
            else Except.ok (FS.erase fs p))
          (PySrc.list qs) "" F_NOSET F_RM_EMPTY fs0
        = entryLoop
            (fun p _ _ fs => if p = "/t/bad" then Except.error (PyErr.OSError "boom")
              else Except.ok (FS.erase fs p)) "" F_NOSET qs fs0 :=
  c9_entry_sequential_abort noGlob _ ["/t/a"] ["/t/c"] "/t/bad" "" F_NOSET F_RM_EMPTY
    fsC5 (FS.erase fsC5 "/t/a") (PyErr.OSError "boom") (by decide) rfl rfl

/-- Helper for C10: the `zip` loop of `_cmp_text` returns `True` whenever
every paired line either is equal or is a blank pair skipped under
`C_IGNORE_BLANK_LINES`. -/
theorem cmpTextLoop_all_ok (mode : Nat) (pairs : List (String × String))
    (h : ∀ pr ∈ pairs, pr.1 = pr.2 ∨
      (mode &&& C_IGNORE_BLANK_LINES ≠ 0 ∧ pyStrip pr.1 = "" ∧ pyStrip pr.2 = "")) :
    cmpTextLoop mode pairs = true := by
  induction pairs with
  | nil => rfl
  | cons pr rest ih =>
    obtain ⟨l1, l2⟩ := pr
    have hpr := h (l1, l2) (by simp)
    have hrest : ∀ q ∈ rest, q.1 = q.2 ∨
        (mode &&& C_IGNORE_BLANK_LINES ≠ 0 ∧ pyStrip q.1 = "" ∧ pyStrip q.2 = "") :=
      fun q hq => h q (by simp [hq])
    rcases hpr with heq | ⟨hibl, hb1, hb2⟩
    · simp only at heq
      subst heq
      by_cases hblank : mode &&& C_IGNORE_BLANK_LINES ≠ 0 ∧ pyStrip l1 = "" ∧ pyStrip l1 = ""
      · simp [cmpTextLoop, hblank, ih hrest]
      · simp [cmpTextLoop, hblank, ih hrest]
    · simp only at hibl hb1 hb2
      simp [cmpTextLoop, hibl, hb1, hb2, ih hrest]

/-- C10: in text mode, `zip` truncates the line comparison at the shorter
file: for two distinct regular readable files (no cached result for the
pair) whose paired lines each compare equal under the active flags,
`cmpfile` returns `True` — in particular when one file simply has extra
trailing lines beyond the other, since those never enter the zip. -/
theorem c10_text_compare_truncates_at_shorter
    (fs : FS) (cache : Cache) (file1 file2 : String) (mode : Nat) (n1 n2 : FNode)
    (htext : mode &&& C_TEXT ≠ 0)
    (hshallow : mode &&& C_SHALLOW = 0)
    (hbin : mode &&& C_BINARY = 0)
    (hne : file1 ≠ file2)
    (h1 : FS.lookup fs file1 = some n1) (h1f : n1.ntype = NodeType.file) (h1r : n1.readable = true)
    (h2 : FS.lookup fs file2 = some n2) (h2f : n2.ntype = NodeType.file) (h2r : n2.readable = true)
    (hcache : cacheGet cache (file1, file2, nodeSig n1, nodeSig n2) = none)
    (hlines : ∀ pr ∈ (splitLinesKeep n1.content).zip (splitLinesKeep n2.content),
        pr.1 = pr.2 ∨ (mode &&& C_IGNORE_BLANK_LINES ≠ 0 ∧ pyStrip pr.1 = "" ∧ pyStrip pr.2 = "")) :
    Except.map Prod.fst (cmpfile fs cache file1 file2 mode) = Except.ok (some true) := by
  have hct : _cmp_text fs file1 file2 mode = Except.ok true := by
    simp [_cmp_text, pyOpenRead, h1, h2, h1f, h2f, h1r, h2r,
      cmpTextLoop_all_ok mode _ hlines]
  have hc1 : ¬ (mode &&& C_SHALLOW ≠ 0 ∧ mode &&& C_TEXT ≠ 0) := by simp [hshallow]
  have hc2 : ¬ (mode &&& C_BINARY ≠ 0 ∧ mode &&& C_TEXT ≠ 0) := by simp [hbin]
  simp only [nodeSig, h1f, h2f] at hcache
  simp [cmpfile, hc1, hc2, hne, _sig, os_stat, h1, h2, h1f, h2f, hcache, hshallow,
    hbin, htext, hct, nodeSig, Except.map]

def fsC10 : FS :=
  [("/t", dirFNode),
   ("/t/x", { ntype := NodeType.file, content := "a\nb\n", mtime := 1 }),
   ("/t/y", { ntype := NodeType.file, content := "a\nb\nc\nd\n", mtime := 2 })]

/-- C10 witness: `/t/y` extends `/t/x` by two trailing lines and the two
files compare text-equal. -/
theorem c10_text_compare_truncates_at_shorter_witness :
    Except.map Prod.fst (cmpfile fsC10 [] "/t/x" "/t/y" C_TEXT) = Except.ok (some true) :=
  c10_text_compare_truncates_at_shorter fsC10 [] "/t/x" "/t/y" C_TEXT
    { ntype := NodeType.file, content := "a\nb\n", mtime := 1 }
    { ntype := NodeType.file, content := "a\nb\nc\nd\n", mtime := 2 }
    (by decide) (by decide) (by decide) (by decide)
    rfl rfl rfl rfl rfl rfl rfl (by decide)

/-- C3: single-file copy onto an existing destination file.  With
`F_REPLACE` the destination is deleted and the source's content, mtime and
permission bits land in its place; with `F_UPDATE` (and no `F_REPLACE`) the
same happens exactly when the source's mtime is strictly greater, and the
whole filesystem is returned unchanged otherwise; with `F_IGNORE` as the
policy nothing changes and no error is raised.  The hypotheses pin the
scenario: normalized POSIX paths, distinct regular source and destination
files, readable source, and a writable containing directory so the copy
itself succeeds. -/
theorem c3_copyfile_conflict_policy
    (fs : FS) (src dest : String) (ns nd pd : FNode) (mode : Nat)
    (hsa : adaptive Platform.posix src = Except.ok src)
    (hda : adaptive Platform.posix dest = Except.ok dest)
    (hne : src ≠ dest)
    (hs : FS.lookup fs src = some ns) (hsf : ns.ntype = NodeType.file) (hsr : ns.readable = true)
    (hd : FS.lookup fs dest = some nd) (hdf : nd.ntype = NodeType.file)
    (hdd : posixDirname dest ≠ dest)
    (hpd : FS.lookup fs (posixDirname dest) = some pd)
    (hpdd : pd.ntype = NodeType.dir) (hpdw : pd.writable = true) :
    (mode &&& F_REPLACE ≠ 0 →
      _copyfile src dest mode fs = Except.ok (FS.set (FS.erase fs dest) dest ns)) ∧
    (mode &&& F_REPLACE = 0 ∧ mode &&& F_UPDATE ≠ 0 ∧ nd.mtime < ns.mtime →
      _copyfile src dest mode fs = Except.ok (FS.set (FS.erase fs dest) dest ns)) ∧
    (mode &&& F_REPLACE = 0 ∧ mode &&& F_UPDATE ≠ 0 ∧ ns.mtime ≤ nd.mtime →
      _copyfile src dest mode fs = Except.ok fs) ∧
    (mode &&& F_REPLACE = 0 ∧ mode &&& F_UPDATE = 0 ∧ mode &&& F_IGNORE ≠ 0 →
      _copyfile src dest mode fs = Except.ok fs) := by
  have hdestdir : fsIsDir fs dest = false := by simp [fsIsDir, hd, hdf]
  have hdestex : fsExists fs dest = true := by simp [fsExists, hd]
  have hrm : os_remove fs dest = Except.ok (FS.erase fs dest) := by simp [os_remove, hd, hdf]
  have hlknd : FS.lookup (FS.erase fs dest) src = some ns := by
    rw [FS.lookup_erase]
    simp [hne, hs]
  have hcw : canWriteTo (FS.erase fs dest) dest = true := by
    simp [canWriteTo, FS.lookup_erase, hdd, hpd, hpdd, hpdw]
  have hc2 : shutil_copy2 (FS.erase fs dest) src dest
      = Except.ok (FS.set (FS.erase fs dest) dest ns) := by
    simp [shutil_copy2, hlknd, hsf, hsr, fsIsDir, FS.lookup_erase, hcw]
  have hfin : copyfileFinish (FS.erase fs dest) src dest
      = Except.ok (FS.set (FS.erase fs dest) dest ns) := by
    simp [copyfileFinish, hc2]
  have hms : os_getmtime fs src = Except.ok ns.mtime := by
    simp [os_getmtime, os_stat, hs, nodeSig, Except.map]
  have hmd : os_getmtime fs dest = Except.ok nd.mtime := by
    simp [os_getmtime, os_stat, hd, nodeSig, Except.map]
  refine ⟨?_, ?_, ?_, ?_⟩
  · intro hrep
    simp [_copyfile, hsa, hda, hdestdir, hdestex, hrep, hrm, hfin]
  · rintro ⟨hnorep, hupd, hlt⟩
    have hnle : ¬ ns.mtime ≤ nd.mtime := not_le.mpr hlt
    simp [_copyfile, hsa, hda, hdestdir, hdestex, hnorep, hupd, hms, hmd, hnle, hrm, hfin]
  · rintro ⟨hnorep, hupd, hle⟩
    simp [_copyfile, hsa, hda, hdestdir, hdestex, hnorep, hupd, hms, hmd, hle]
  · rintro ⟨hnorep, hnoupd, hign⟩
    simp [_copyfile, hsa, hda, hdestdir, hdestex, hnorep, hnoupd, hign]

def nC3src : FNode := { ntype := NodeType.file, content := "A", mtime := 20 }

def nC3dst : FNode := { ntype := NodeType.file, content := "B", mtime := 10 }

def fsC3 : FS := [("/t", dirFNode), ("/t/a", nC3src), ("/t/b", nC3dst)]

/-- C3 witness: over concrete files (`/t/a`: "A", mtime 20; `/t/b`: "B",
mtime 10) the four branches of the policy theorem — replace, update with a
newer source, update with an older source, ignore — all fire. -/
theorem c3_copyfile_conflict_policy_witness :
    _copyfile "/t/a" "/t/b" F_REPLACE fsC3
        = Except.ok (FS.set (FS.erase fsC3 "/t/b") "/t/b" nC3src)
      ∧ _copyfile "/t/a" "/t/b" F_UPDATE fsC3
          = Except.ok (FS.set (FS.erase fsC3 "/t/b") "/t/b" nC3src)
      ∧ _copyfile "/t/b" "/t/a" F_UPDATE fsC3 = Except.ok fsC3
      ∧ _copyfile "/t/a" "/t/b" F_IGNORE fsC3 = Except.ok fsC3 := by
  refine ⟨?_, ?_, ?_, ?_⟩
  · exact (c3_copyfile_conflict_policy fsC3 "/t/a" "/t/b" nC3src nC3dst dirFNode F_REPLACE
      rfl rfl (by decide) rfl rfl rfl rfl rfl (by decide) rfl rfl rfl).1 (by decide)
  · exact (c3_copyfile_conflict_policy fsC3 "/t/a" "/t/b" nC3src nC3dst dirFNode F_UPDATE
      rfl rfl (by decide) rfl rfl rfl rfl rfl (by decide) rfl rfl rfl).2.1
      ⟨by decide, by decide, by decide⟩
  · exact (c3_copyfile_conflict_policy fsC3 "/t/b" "/t/a" nC3dst nC3src dirFNode F_UPDATE
      rfl rfl (by decide) rfl rfl rfl rfl rfl (by decide) rfl rfl rfl).2.2.1
      ⟨by decide, by decide, by decide⟩
  · exact (c3_copyfile_conflict_policy fsC3 "/t/a" "/t/b" nC3src nC3dst dirFNode F_IGNORE
      rfl rfl (by decide) rfl rfl rfl rfl rfl (by decide) rfl rfl rfl).2.2.2
      ⟨by decide, by decide, by decide⟩

end Ust
